import Mathlib

/-!
Shallow embedding of `AI辩论（Gradio交互界面版）.py`.

The file has two independent parts:
* a debate orchestrator (`call_gpt`, `call_deepseek`, `start_debate`), and
* a voice chatbot (`VoiceChatbot.process_audio`, `_recording_callback`,
  `change_language`) together with its volume-gated speech segmenter.

The remote chat endpoints are modelled as oracle functions from the data the
code actually sends (api key, model name, message list) to either a reply
text or a raised exception message; everything else is translated directly
from the Python source.
-/

namespace Debate

/-- A role-tagged chat message, as the Python dicts
`{"role": r, "content": c}`. -/
structure Msg where
  role : String
  content : String
deriving DecidableEq, Repr

/-- Behaviour of a remote chat endpoint: from the request data the code sends
(api key, model name, messages) to either the top completion text or the
message of the exception the request raised. -/
def Oracle : Type := String → String → List Msg → Except String String

/-- `call_gpt(api_key, model, system, messages)` from the source: on success
return the completion text, on any exception return the formatted error
string `f"[GPT 出错: {e}]"`.  The `system` parameter is accepted but unused,
exactly as in the source. -/
def call_gpt (oracle : Oracle) (api_key model system : String)
    (messages : List Msg) : String :=
  match oracle api_key model messages with
  | .ok text => text
  | .error e => "[GPT 出错: " ++ e ++ "]"

/-- `call_deepseek(api_key, model, system, messages)` from the source: on
success return `data["choices"][0]["message"]["content"]`, on any exception
return `f"[DeepSeek 出错: {e}]"`.  The `system` parameter is accepted but
unused, exactly as in the source. -/
def call_deepseek (oracle : Oracle) (api_key model system : String)
    (messages : List Msg) : String :=
  match oracle api_key model messages with
  | .ok text => text
  | .error e => "[DeepSeek 出错: " ++ e ++ "]"

/-- The inputs of `start_debate`, with the two endpoints' behaviour as
oracles. -/
structure DebateParams where
  gpt_api_key : String
  deepseek_api_key : String
  gpt_model : String
  deepseek_model : String
  gpt_system : String
  deepseek_system : String
  gpt_first_statement : String
  deepseek_first_statement : String
  gptOracle : Oracle
  dsOracle : Oracle

/-- The mutable state of `start_debate`'s loop: the two per-speaker message
histories and the transcript accumulator `conversation_md`. -/
structure DebateState where
  gpt_messages : List String
  deepseek_messages : List String
  conversation_md : List String
deriving DecidableEq, Repr

/-- The `gpt_history` built at the top of each round:
`[{"role": "system", ...}]` followed by, for each `zip`ped pair of prior
messages, the GPT message tagged `assistant` and the DeepSeek message tagged
`user`. -/
def gptHistory (gpt_system : String) (gpt_messages deepseek_messages : List String) :
    List Msg :=
  ⟨"system", gpt_system⟩ ::
    (List.zip gpt_messages deepseek_messages).flatMap
      (fun p => [⟨"assistant", p.1⟩, ⟨"user", p.2⟩])

/-- The `deepseek_history` built in each round: the system prompt, then for
each `zip`ped pair the GPT message tagged `user` and the DeepSeek message
tagged `assistant`, then the fresh GPT reply appended tagged `user`. -/
def deepseekHistory (deepseek_system : String)
    (gpt_messages deepseek_messages : List String) (gpt_next : String) :
    List Msg :=
  (⟨"system", deepseek_system⟩ ::
    (List.zip gpt_messages deepseek_messages).flatMap
      (fun p => [⟨"user", p.1⟩, ⟨"assistant", p.2⟩]))
    ++ [⟨"user", gpt_next⟩]

/-- One iteration of the `for i in range(num_rounds)` loop, returning both
the state after the GPT half of the round (mid state) and the state after the
DeepSeek half (end state). -/
def debateRoundStates (P : DebateParams) (s : DebateState) :
    DebateState × DebateState :=
  let gpt_history := gptHistory P.gpt_system s.gpt_messages s.deepseek_messages
  let gpt_next := call_gpt P.gptOracle P.gpt_api_key P.gpt_model P.gpt_system gpt_history
  let mid : DebateState :=
    ⟨s.gpt_messages ++ [gpt_next], s.deepseek_messages,
      s.conversation_md ++ ["**GPT:** " ++ gpt_next]⟩
  let deepseek_history :=
    deepseekHistory P.deepseek_system mid.gpt_messages mid.deepseek_messages gpt_next
  let deepseek_next :=
    call_deepseek P.dsOracle P.deepseek_api_key P.deepseek_model P.deepseek_system
      deepseek_history
  (mid,
    ⟨mid.gpt_messages, mid.deepseek_messages ++ [deepseek_next],
      mid.conversation_md ++ ["**DeepSeek:** " ++ deepseek_next]⟩)

/-- One full round of the debate loop. -/
def debateRound (P : DebateParams) (s : DebateState) : DebateState :=
  (debateRoundStates P s).2

/-- The state just before the loop: each history holds its opening statement
and the transcript holds the two opening entries. -/
def debateInit (P : DebateParams) : DebateState :=
  ⟨[P.gpt_first_statement], [P.deepseek_first_statement],
    ["**G老师:** " ++ P.gpt_first_statement,
     "**Deep老师:** " ++ P.deepseek_first_statement]⟩

/-- The loop state after `n` completed rounds. -/
def debateStateAfter (P : DebateParams) : Nat → DebateState
  | 0 => debateInit P
  | n + 1 => debateRound P (debateStateAfter P n)

/-- The entries of the returned transcript: `conversation_md` after the loop
plus the final `"**对话结束!** ✅"` entry appended after the loop. -/
def transcriptEntries (P : DebateParams) (num_rounds : Nat) : List String :=
  (debateStateAfter P num_rounds).conversation_md ++ ["**对话结束!** ✅"]

/-- `start_debate`: run the loop and join the collected entries with blank
lines. -/
def start_debate (P : DebateParams) (num_rounds : Nat) : String :=
  String.intercalate "\n\n" (transcriptEntries P num_rounds)

/-- The `gpt_history` passed to `call_gpt` in round `i` (the loop state being
`debateStateAfter P i` at that point). -/
def gptHistoryAt (P : DebateParams) (i : Nat) : List Msg :=
  gptHistory P.gpt_system (debateStateAfter P i).gpt_messages
    (debateStateAfter P i).deepseek_messages

/-- The GPT reply `gpt_next` produced in round `i`. -/
def gptReplyAt (P : DebateParams) (i : Nat) : String :=
  call_gpt P.gptOracle P.gpt_api_key P.gpt_model P.gpt_system (gptHistoryAt P i)

/-- The `deepseek_history` passed to `call_deepseek` in round `i` (built from
`gpt_messages` after `gpt_next` has been appended). -/
def dsHistoryAt (P : DebateParams) (i : Nat) : List Msg :=
  deepseekHistory P.deepseek_system
    ((debateStateAfter P i).gpt_messages ++ [gptReplyAt P i])
    (debateStateAfter P i).deepseek_messages (gptReplyAt P i)

/-- The DeepSeek reply `deepseek_next` produced in round `i`. -/
def dsReplyAt (P : DebateParams) (i : Nat) : String :=
  call_deepseek P.dsOracle P.deepseek_api_key P.deepseek_model P.deepseek_system
    (dsHistoryAt P i)

/-- The message recorded in `gpt_messages` at position `k`: the opening
statement, then the successive GPT replies. -/
def gptMsgAt (P : DebateParams) : Nat → String
  | 0 => P.gpt_first_statement
  | k + 1 => gptReplyAt P k

/-- The message recorded in `deepseek_messages` at position `k`. -/
def dsMsgAt (P : DebateParams) : Nat → String
  | 0 => P.deepseek_first_statement
  | k + 1 => dsReplyAt P k

/-- Sample inputs (with an always-succeeding oracle for each endpoint) used
to instantiate the universally quantified theorems at concrete values. -/
def okOracle : Oracle := fun _ _ _ => .ok "re"

/-- An oracle whose every request raises, modelling an endpoint that always
fails. -/
def errorOracle : Oracle := fun _ _ _ => .error "boom"

/-- Concrete debate inputs with both endpoints succeeding. -/
def sampleParams : DebateParams :=
  ⟨"gk", "dk", "gpt-4o-mini", "deepseek-chat", "gsys", "dsys", "g0", "d0",
    okOracle, okOracle⟩

/-- Concrete debate inputs with both endpoints failing on every call. -/
def failingParams : DebateParams :=
  ⟨"gk", "dk", "gpt-4o-mini", "deepseek-chat", "gsys", "dsys", "g0", "d0",
    errorOracle, errorOracle⟩

/-- The sequence of loop states at every mutation point up to round `n`: the
initial state, then for each round the state after the GPT half and the state
after the DeepSeek half. -/
def debateStates (P : DebateParams) : Nat → List DebateState
  | 0 => [debateInit P]
  | n + 1 =>
      debateStates P n ++
        [(debateRoundStates P (debateStateAfter P n)).1,
         (debateRoundStates P (debateStateAfter P n)).2]

end Debate

namespace Voice

/-- `SAMPLE_RATE = 16000`. -/
def SAMPLE_RATE : Nat := 16000

/-- `SILENCE_THRESHOLD = 0.015`. -/
def SILENCE_THRESHOLD : ℚ := 15 / 1000

/-- `MIN_SPEECH_DURATION = 0.3`. -/
def MIN_SPEECH_DURATION : ℚ := 3 / 10

/-- `MIN_SILENCE_DURATION = 0.8`. -/
def MIN_SILENCE_DURATION : ℚ := 8 / 10

/-- `PRE_SPEECH_BUFFER = 0.5`. -/
def PRE_SPEECH_BUFFER : ℚ := 5 / 10

/-- One item of the audio queue as consumed by `process_audio`: an audio
chunk of `len` samples together with the volume computed for it by the
recording callback.  Durations are modelled as exact rationals. -/
structure Chunk where
  len : Nat
  volume : ℚ
deriving DecidableEq, Repr

/-- `chunk_duration = len(audio_chunk) / SAMPLE_RATE`. -/
def Chunk.duration (c : Chunk) : ℚ := (c.len : ℚ) / (SAMPLE_RATE : ℚ)

/-- The local state of `process_audio`'s loop: the frame buffer
`accumulated_audio` and the four counters. -/
structure SegState where
  accumulated_audio : List Chunk
  accumulated_time : ℚ
  speech_started : Bool
  speech_duration : ℚ
  silence_duration : ℚ
deriving DecidableEq, Repr

/-- The state at the top of `process_audio` (and again right after a flush):
empty buffer, all counters zero, speech not started. -/
def initSegState : SegState := ⟨[], 0, false, 0, 0⟩

/-- One iteration of `process_audio`'s loop body on a dequeued chunk,
returning the new state and whether this chunk triggered a flush (a call to
`process_accumulated_audio` followed by the counter reset). -/
def processChunk (s : SegState) (c : Chunk) : SegState × Bool :=
  let chunk_duration := c.duration
  let accumulated_time := s.accumulated_time + chunk_duration
  let speech_started :=
    if c.volume > SILENCE_THRESHOLD then
      (if s.speech_started = false ∧ accumulated_time ≥ PRE_SPEECH_BUFFER then
        true
      else s.speech_started)
    else s.speech_started
  let speech_duration :=
    if c.volume > SILENCE_THRESHOLD then
      (if speech_started then s.speech_duration + chunk_duration
       else s.speech_duration)
    else s.speech_duration
  let silence_duration :=
    if c.volume > SILENCE_THRESHOLD then
      (if speech_started then 0 else s.silence_duration)
    else
      (if s.speech_started then s.silence_duration + chunk_duration
       else s.silence_duration)
  let accumulated_audio := s.accumulated_audio ++ [c]
  let should_process :=
    speech_started = true ∧ speech_duration ≥ MIN_SPEECH_DURATION ∧
      silence_duration ≥ MIN_SILENCE_DURATION
  if should_process then (initSegState, true)
  else (⟨accumulated_audio, accumulated_time, speech_started, speech_duration,
          silence_duration⟩, false)

/-- Run the loop body over a sequence of dequeued chunks, counting how many
flushes (hand-offs to `process_accumulated_audio`) occur. -/
def runSeg : SegState → List Chunk → SegState × Nat
  | s, [] => (s, 0)
  | s, c :: cs =>
      let r := processChunk s c
      let r2 := runSeg r.1 cs
      (r2.1, (if r.2 then 1 else 0) + r2.2)

/-- Total duration of a list of chunks. -/
def sumDur (L : List Chunk) : ℚ := (L.map Chunk.duration).sum

/-- Concrete witness sequence for the segmenter: 0.5 s of silence, 0.3 s of
voice, 0.7 s of silence, one more 0.1 s silent chunk (crossing the 0.8 s
threshold), then 0.2 s of silence. -/
def wPre : List Chunk := List.replicate 5 ⟨1600, 0⟩

/-- Voiced run of the witness sequence. -/
def wV : List Chunk := List.replicate 3 ⟨1600, 1 / 10⟩

/-- Trailing silence of the witness sequence before the crossing chunk. -/
def wS1 : List Chunk := List.replicate 7 ⟨1600, 0⟩

/-- The silent chunk whose arrival crosses `MIN_SILENCE_DURATION`. -/
def wC : Chunk := ⟨1600, 0⟩

/-- Silence after the flush in the witness sequence. -/
def wS2 : List Chunk := List.replicate 2 ⟨1600, 0⟩

/-- The keys of the `LANGUAGES` dict. -/
inductive Language
  | english
  | deutsch
  | chinese
deriving DecidableEq, Repr

/-- `LANGUAGES[lang]["code"]`. -/
def language_code : Language → String
  | .english => "en"
  | .deutsch => "de"
  | .chinese => "zh"

/-- `LANGUAGES[lang]["system_prompt"]`. -/
def system_prompt : Language → String
  | .english =>
      "You are a friendly English tutor. Respond concisely in under 100 words in English."
  | .deutsch =>
      "Du bist ein freundlicher Deutschlehrer. Antworte kurz und prägnant in maximal 100 Wörtern auf Deutsch."
  | .chinese => "你是一位友好的中文老师。请用100字以内的中文简洁回答。"

/-- The mutable fields of `VoiceChatbot` that `change_language` and
`_recording_callback` touch: the active language, the chat context, the two
coordination flags, the audio queue (FIFO, `put` appends at the tail; each
item is the copied sample data with its volume) and the volume meter
value. -/
structure VCState where
  current_language : Language
  context : List Debate.Msg
  processing_enabled : Bool
  is_playing : Bool
  audio_queue : List (List ℚ × ℚ)
  current_volume : ℚ
deriving DecidableEq, Repr

/-- The initial context built in `__init__` (and rebuilt on resets). -/
def initialContext (lang : Language) : List Debate.Msg :=
  [⟨"system", system_prompt lang⟩]

/-- `np.max(np.abs(indata))`, with the samples as rationals. -/
def maxAbsVolume (indata : List ℚ) : ℚ :=
  (indata.map (fun x => |x|)).foldr max 0

/-- `VoiceChatbot._recording_callback`: update the volume meter, then enqueue
the frame only when `processing_enabled` and not `is_playing`. -/
def recording_callback (s : VCState) (indata : List ℚ) : VCState :=
  let volume := maxAbsVolume indata
  let s1 : VCState := { s with current_volume := volume * 2 }
  if s1.processing_enabled = true ∧ s1.is_playing = false then
    { s1 with audio_queue := s1.audio_queue ++ [(indata, volume)] }
  else s1

/-- `VoiceChatbot.change_language`: if the selected language differs from the
current one, set it and replace the whole context by the single new system
message; otherwise do nothing. -/
def change_language (s : VCState) (new_language : Language) : VCState :=
  if new_language ≠ s.current_language then
    { s with
        current_language := new_language,
        context := [⟨"system", system_prompt new_language⟩] }
  else s

end Voice

namespace Debate

theorem debateStateAfter_succ (P : DebateParams) (n : Nat) :
    debateStateAfter P (n + 1) =
      ⟨(debateStateAfter P n).gpt_messages ++ [gptReplyAt P n],
       (debateStateAfter P n).deepseek_messages ++ [dsReplyAt P n],
       (debateStateAfter P n).conversation_md ++
         ["**GPT:** " ++ gptReplyAt P n, "**DeepSeek:** " ++ dsReplyAt P n]⟩ := by
  show debateRound P (debateStateAfter P n) = _
  simp only [debateRound, debateRoundStates, gptReplyAt, dsReplyAt, gptHistoryAt,
    dsHistoryAt, List.append_assoc, List.singleton_append]

theorem gpt_messages_eq (P : DebateParams) (n : Nat) :
    (debateStateAfter P n).gpt_messages = (List.range (n + 1)).map (gptMsgAt P) := by
  induction n with
  | zero => simp [debateStateAfter, debateInit, gptMsgAt, List.range_succ]
  | succ n ih =>
      rw [debateStateAfter_succ]
      have hr : List.range (n + 1 + 1) = List.range (n + 1) ++ [n + 1] :=
        List.range_succ (n + 1)
      rw [hr, List.map_append, ih]
      simp [gptMsgAt]

theorem deepseek_messages_eq (P : DebateParams) (n : Nat) :
    (debateStateAfter P n).deepseek_messages = (List.range (n + 1)).map (dsMsgAt P) := by
  induction n with
  | zero => simp [debateStateAfter, debateInit, dsMsgAt, List.range_succ]
  | succ n ih =>
      rw [debateStateAfter_succ]
      have hr : List.range (n + 1 + 1) = List.range (n + 1) ++ [n + 1] :=
        List.range_succ (n + 1)
      rw [hr, List.map_append, ih]
      simp [dsMsgAt]

theorem conversation_md_eq (P : DebateParams) (n : Nat) :
    (debateStateAfter P n).conversation_md =
      ["**G老师:** " ++ P.gpt_first_statement,
       "**Deep老师:** " ++ P.deepseek_first_statement] ++
      (List.range n).flatMap
        (fun i => ["**GPT:** " ++ gptReplyAt P i, "**DeepSeek:** " ++ dsReplyAt P i]) := by
  induction n with
  | zero => simp [debateStateAfter, debateInit]
  | succ n ih =>
      rw [debateStateAfter_succ]
      simp [List.range_succ, ih]

theorem gpt_messages_length (P : DebateParams) (n : Nat) :
    (debateStateAfter P n).gpt_messages.length = n + 1 := by
  rw [gpt_messages_eq]; simp

theorem deepseek_messages_length (P : DebateParams) (n : Nat) :
    (debateStateAfter P n).deepseek_messages.length = n + 1 := by
  rw [deepseek_messages_eq]; simp

theorem conversation_md_length (P : DebateParams) (n : Nat) :
    (debateStateAfter P n).conversation_md.length = 2 + 2 * n := by
  induction n with
  | zero => simp [debateStateAfter, debateInit]
  | succ n ih =>
      rw [debateStateAfter_succ]
      simp only [List.length_append, List.length_cons, List.length_nil, ih]
      omega

theorem zip_append_singleton {α β : Type} (x : α) (a : List α) :
    ∀ b : List β, a.length = b.length → List.zip (a ++ [x]) b = List.zip a b := by
  induction a with
  | nil =>
      intro b h
      cases b with
      | nil => simp
      | cons y ys => simp at h
  | cons a as ih =>
      intro b h
      cases b with
      | nil => simp at h
      | cons y ys => simp [ih ys (by simpa using h)]

theorem length_flatMap_pair {α : Type} (f g : Nat → α) (n : Nat) :
    ((List.range n).flatMap (fun k => [f k, g k])).length = 2 * n := by
  induction n with
  | zero => simp
  | succ n ih =>
      rw [List.range_succ]
      simp [ih]
      omega

theorem getElem_flatMap_pair {α : Type} (f g : Nat → α) (n i : Nat) (h : i < n) :
    ((List.range n).flatMap (fun k => [f k, g k]))[2 * i]? = some (f i) ∧
    ((List.range n).flatMap (fun k => [f k, g k]))[2 * i + 1]? = some (g i) := by
  induction n with
  | zero => exact absurd h (Nat.not_lt_zero i)
  | succ n ih =>
      rw [List.range_succ, List.flatMap_append]
      have hl := length_flatMap_pair f g n
      rcases Nat.lt_succ_iff_lt_or_eq.mp h with h' | rfl
      · constructor
        · rw [List.getElem?_append_left (by omega)]
          exact (ih h').1
        · rw [List.getElem?_append_left (by omega)]
          exact (ih h').2
      · constructor
        · rw [List.getElem?_append_right (by omega)]
          simp [hl]
        · rw [List.getElem?_append_right (by omega)]
          simp [hl]

theorem debateRoundStates_fst (P : DebateParams) (n : Nat) :
    (debateRoundStates P (debateStateAfter P n)).1 =
      ⟨(debateStateAfter P n).gpt_messages ++ [gptReplyAt P n],
       (debateStateAfter P n).deepseek_messages,
       (debateStateAfter P n).conversation_md ++ ["**GPT:** " ++ gptReplyAt P n]⟩ :=
  rfl

/-- C1 counterexample: at round count `N = 1` the transcript returned by
`start_debate` has 5 entries, not `2 + 2 * 1 = 4`: besides the two opening
statements and the round's two replies, the code appends a closing
`"**对话结束!** ✅"` entry. -/
theorem transcript_length_counterexample :
    (transcriptEntries sampleParams 1).length ≠ 2 + 2 * 1 := by
  have h := conversation_md_length sampleParams 1
  simp [transcriptEntries, h]

/-- C1 (amended): for every round count `1 ≤ N ≤ 20`, the transcript returned
by `start_debate` contains exactly `2 + 2N + 1` entries: the two opening
statements, then for each round one GPT reply followed by one DeepSeek reply
in that strict order, then one closing end-of-debate marker entry. -/
theorem transcript_shape (P : DebateParams) (N : Nat)
    (h1 : 1 ≤ N) (h2 : N ≤ 20) :
    transcriptEntries P N =
      ["**G老师:** " ++ P.gpt_first_statement,
       "**Deep老师:** " ++ P.deepseek_first_statement] ++
      (List.range N).flatMap
        (fun i => ["**GPT:** " ++ gptReplyAt P i, "**DeepSeek:** " ++ dsReplyAt P i]) ++
      ["**对话结束!** ✅"] ∧
    (transcriptEntries P N).length = 2 + 2 * N + 1 := by
  constructor
  · rw [transcriptEntries, conversation_md_eq]
  · have h := conversation_md_length P N
    simp [transcriptEntries, h]

theorem transcript_shape_witness :
    1 ≤ 1 ∧ (1 : Nat) ≤ 20 ∧
    (transcriptEntries sampleParams 1).length = 2 + 2 * 1 + 1 :=
  ⟨by decide, by decide,
    (transcript_shape sampleParams 1 (by decide) (by decide)).2⟩

/-- C2: in every round `i`, the message list passed to `call_gpt` is the GPT
system prompt followed by the strictly alternating pairs (GPT message `k`
tagged `assistant`, DeepSeek message `k` tagged `user`) for `k = 0, ..., i`;
the message list passed to `call_deepseek` is the DeepSeek system prompt
followed by the alternating pairs (GPT message `k` tagged `user`, DeepSeek
message `k` tagged `assistant`) for `k = 0, ..., i`, followed by the GPT
reply of the same round tagged `user` as the final entry. -/
theorem call_histories_alternate (P : DebateParams) (i : Nat) :
    gptHistoryAt P i =
      ⟨"system", P.gpt_system⟩ ::
        (List.range (i + 1)).flatMap
          (fun k => [⟨"assistant", gptMsgAt P k⟩, ⟨"user", dsMsgAt P k⟩]) ∧
    dsHistoryAt P i =
      (⟨"system", P.deepseek_system⟩ ::
        (List.range (i + 1)).flatMap
          (fun k => [⟨"user", gptMsgAt P k⟩, ⟨"assistant", dsMsgAt P k⟩]))
        ++ [⟨"user", gptReplyAt P i⟩] := by
  constructor
  · rw [gptHistoryAt, gptHistory, gpt_messages_eq, deepseek_messages_eq,
      List.zip_map']
    simp [List.flatMap_map]
  · rw [dsHistoryAt, deepseekHistory, gpt_messages_eq, deepseek_messages_eq,
      zip_append_singleton _ _ _ (by simp), List.zip_map']
    simp [List.flatMap_map]

/-- C5: when the remote request of either caller raises in round `i`, the
caller returns the formatted error string, that string is recorded in the
failing model's message history and (prefixed with the speaker label) in the
transcript for that turn, and the loop still runs to completion, producing
the full-length transcript. -/
theorem failed_call_recorded (P : DebateParams) (n i : Nat)
    (e1 e2 : String) (hin : i < n) :
    (P.gptOracle P.gpt_api_key P.gpt_model (gptHistoryAt P i) = .error e1 →
      gptReplyAt P i = "[GPT 出错: " ++ e1 ++ "]" ∧
      (debateStateAfter P n).gpt_messages[i + 1]? =
        some ("[GPT 出错: " ++ e1 ++ "]") ∧
      (debateStateAfter P n).conversation_md[2 + 2 * i]? =
        some ("**GPT:** " ++ ("[GPT 出错: " ++ e1 ++ "]"))) ∧
    (P.dsOracle P.deepseek_api_key P.deepseek_model (dsHistoryAt P i) = .error e2 →
      dsReplyAt P i = "[DeepSeek 出错: " ++ e2 ++ "]" ∧
      (debateStateAfter P n).deepseek_messages[i + 1]? =
        some ("[DeepSeek 出错: " ++ e2 ++ "]") ∧
      (debateStateAfter P n).conversation_md[2 + 2 * i + 1]? =
        some ("**DeepSeek:** " ++ ("[DeepSeek 出错: " ++ e2 ++ "]"))) ∧
    (debateStateAfter P n).conversation_md.length = 2 + 2 * n := by
  have hgm : (debateStateAfter P n).gpt_messages[i + 1]? =
      some (gptMsgAt P (i + 1)) := by
    rw [gpt_messages_eq]
    simp [List.getElem?_range, Nat.succ_lt_succ hin]
  have hdm : (debateStateAfter P n).deepseek_messages[i + 1]? =
      some (dsMsgAt P (i + 1)) := by
    rw [deepseek_messages_eq]
    simp [List.getElem?_range, Nat.succ_lt_succ hin]
  have hmd1 : (debateStateAfter P n).conversation_md[2 + 2 * i]? =
      some ("**GPT:** " ++ gptReplyAt P i) := by
    rw [conversation_md_eq,
      List.getElem?_append_right (by simp only [List.length_cons, List.length_nil]; omega)]
    have h2 : 2 + 2 * i - List.length
        ["**G老师:** " ++ P.gpt_first_statement,
         "**Deep老师:** " ++ P.deepseek_first_statement] = 2 * i := by
      simp only [List.length_cons, List.length_nil]
      omega
    rw [h2]
    exact (getElem_flatMap_pair _ _ n i hin).1
  have hmd2 : (debateStateAfter P n).conversation_md[2 + 2 * i + 1]? =
      some ("**DeepSeek:** " ++ dsReplyAt P i) := by
    rw [conversation_md_eq,
      List.getElem?_append_right (by simp only [List.length_cons, List.length_nil]; omega)]
    have h2 : 2 + 2 * i + 1 - List.length
        ["**G老师:** " ++ P.gpt_first_statement,
         "**Deep老师:** " ++ P.deepseek_first_statement] = 2 * i + 1 := by
      simp only [List.length_cons, List.length_nil]
      omega
    rw [h2]
    exact (getElem_flatMap_pair _ _ n i hin).2
  refine ⟨fun he1 => ?_, fun he2 => ?_, conversation_md_length P n⟩
  · have hr : gptReplyAt P i = "[GPT 出错: " ++ e1 ++ "]" := by
      rw [gptReplyAt, call_gpt, he1]
    refine ⟨hr, ?_, ?_⟩
    · rw [hgm]; simp [gptMsgAt, hr]
    · rw [hmd1, hr]
  · have hr : dsReplyAt P i = "[DeepSeek 出错: " ++ e2 ++ "]" := by
      rw [dsReplyAt, call_deepseek, he2]
    refine ⟨hr, ?_, ?_⟩
    · rw [hdm]; simp [dsMsgAt, hr]
    · rw [hmd2, hr]

theorem failed_call_recorded_witness :
    (0 : Nat) < 1 ∧
    gptReplyAt failingParams 0 = "[GPT 出错: boom]" ∧
    dsReplyAt failingParams 0 = "[DeepSeek 出错: boom]" ∧
    (debateStateAfter failingParams 1).conversation_md.length = 2 + 2 * 1 := by
  have h := failed_call_recorded failingParams 1 0 "boom" "boom" (by decide)
  exact ⟨by decide, (h.1 rfl).1, (h.2.1 rfl).1, h.2.2⟩

/-- C6: at every mutation point of `start_debate`'s loop the two per-speaker
histories differ in length by at most one, and `gpt_messages` is never
shorter than `deepseek_messages` (the responder trails the initiator within
each round). -/
theorem message_histories_in_lockstep (P : DebateParams) (n : Nat)
    (s : DebateState) (hs : s ∈ debateStates P n) :
    s.deepseek_messages.length ≤ s.gpt_messages.length ∧
    s.gpt_messages.length ≤ s.deepseek_messages.length + 1 := by
  induction n with
  | zero =>
      simp [debateStates] at hs
      subst hs
      simp [debateInit]
  | succ n ih =>
      rw [debateStates] at hs
      rcases List.mem_append.mp hs with h | h
      · exact ih h
      · have hmidg : (debateRoundStates P (debateStateAfter P n)).1.gpt_messages.length
            = n + 2 := by
          rw [debateRoundStates_fst]
          simp [gpt_messages_length]
        have hmidd :
            (debateRoundStates P (debateStateAfter P n)).1.deepseek_messages.length
            = n + 1 := by
          rw [debateRoundStates_fst]
          simp [deepseek_messages_length]
        have hend : (debateRoundStates P (debateStateAfter P n)).2
            = debateStateAfter P (n + 1) := rfl
        rcases List.mem_pair.mp h with rfl | rfl
        · rw [hmidg, hmidd]
          omega
        · rw [hend, gpt_messages_length, deepseek_messages_length]
          omega

theorem message_histories_in_lockstep_witness :
    debateInit sampleParams ∈ debateStates sampleParams 0 ∧
    (debateInit sampleParams).deepseek_messages.length ≤
      (debateInit sampleParams).gpt_messages.length :=
  ⟨by simp [debateStates],
    (message_histories_in_lockstep sampleParams 0 (debateInit sampleParams)
      (by simp [debateStates])).1⟩

/-- C9: the `system` parameter of `call_gpt` and of `call_deepseek` has no
effect on the returned text: with the same oracle (the same endpoint
behaviour) and all other arguments equal, any two values of `system` yield
the same result, because neither function ever reads it. -/
theorem system_param_has_no_effect (og od : Oracle)
    (api_key model sys1 sys2 : String) (messages : List Msg) :
    call_gpt og api_key model sys1 messages =
      call_gpt og api_key model sys2 messages ∧
    call_deepseek od api_key model sys1 messages =
      call_deepseek od api_key model sys2 messages :=
  ⟨rfl, rfl⟩

end Debate

namespace Voice

theorem duration_nonneg (c : Chunk) : 0 ≤ c.duration := by
  unfold Chunk.duration SAMPLE_RATE
  positivity

theorem sumDur_nil : sumDur [] = 0 := rfl

theorem sumDur_cons (c : Chunk) (L : List Chunk) :
    sumDur (c :: L) = c.duration + sumDur L := by
  simp [sumDur]

theorem sumDur_nonneg (L : List Chunk) : 0 ≤ sumDur L := by
  induction L with
  | nil => simp [sumDur_nil]
  | cons c cs ih =>
      rw [sumDur_cons]
      have := duration_nonneg c
      linarith

theorem runSeg_append (L1 L2 : List Chunk) :
    ∀ s : SegState,
      runSeg s (L1 ++ L2) =
        ((runSeg (runSeg s L1).1 L2).1,
         (runSeg s L1).2 + (runSeg (runSeg s L1).1 L2).2) := by
  induction L1 with
  | nil => intro s; simp [runSeg]
  | cons c cs ih =>
      intro s
      simp only [List.cons_append, runSeg, List.append_eq]
      rw [ih]
      simp [Nat.add_assoc]

theorem processChunk_silent_not_started (s : SegState) (c : Chunk)
    (hv : ¬ c.volume > SILENCE_THRESHOLD) (hs : s.speech_started = false) :
    processChunk s c =
      (⟨s.accumulated_audio ++ [c], s.accumulated_time + c.duration, false,
        s.speech_duration, s.silence_duration⟩, false) := by
  simp [processChunk, hv, hs]

theorem processChunk_silent_started_no_flush (s : SegState) (c : Chunk)
    (hv : ¬ c.volume > SILENCE_THRESHOLD) (hs : s.speech_started = true)
    (hsil : s.silence_duration + c.duration < MIN_SILENCE_DURATION) :
    processChunk s c =
      (⟨s.accumulated_audio ++ [c], s.accumulated_time + c.duration, true,
        s.speech_duration, s.silence_duration + c.duration⟩, false) := by
  simp [processChunk, hv, hs, not_le.mpr hsil]

theorem processChunk_silent_started_flush (s : SegState) (c : Chunk)
    (hv : ¬ c.volume > SILENCE_THRESHOLD) (hs : s.speech_started = true)
    (hsp : s.speech_duration ≥ MIN_SPEECH_DURATION)
    (hsil : s.silence_duration + c.duration ≥ MIN_SILENCE_DURATION) :
    processChunk s c = (initSegState, true) := by
  simp [processChunk, hv, hs, hsp, hsil]

theorem processChunk_voiced_first (s : SegState) (c : Chunk)
    (hv : c.volume > SILENCE_THRESHOLD) (hs : s.speech_started = false)
    (ht : s.accumulated_time + c.duration ≥ PRE_SPEECH_BUFFER) :
    processChunk s c =
      (⟨s.accumulated_audio ++ [c], s.accumulated_time + c.duration, true,
        s.speech_duration + c.duration, 0⟩, false) := by
  have h08 : ¬ (0 : ℚ) ≥ MIN_SILENCE_DURATION := by
    norm_num [MIN_SILENCE_DURATION]
  simp [processChunk, hv, hs, ht, h08]

theorem processChunk_voiced_started (s : SegState) (c : Chunk)
    (hv : c.volume > SILENCE_THRESHOLD) (hs : s.speech_started = true) :
    processChunk s c =
      (⟨s.accumulated_audio ++ [c], s.accumulated_time + c.duration, true,
        s.speech_duration + c.duration, 0⟩, false) := by
  have h08 : ¬ (0 : ℚ) ≥ MIN_SILENCE_DURATION := by
    norm_num [MIN_SILENCE_DURATION]
  simp [processChunk, hv, hs, h08]

theorem runSeg_silent_not_started (L : List Chunk) :
    ∀ s : SegState, (∀ c ∈ L, c.volume ≤ SILENCE_THRESHOLD) →
      s.speech_started = false →
      runSeg s L =
        (⟨s.accumulated_audio ++ L, s.accumulated_time + sumDur L, false,
          s.speech_duration, s.silence_duration⟩, 0) := by
  induction L with
  | nil =>
      intro s _ hs
      obtain ⟨buf, t, st, sp, sil⟩ := s
      simp only [SegState.mk.injEq] at hs ⊢
      simp [runSeg, sumDur_nil, hs]
  | cons c cs ih =>
      intro s hL hs
      have hv : ¬ c.volume > SILENCE_THRESHOLD :=
        not_lt.mpr (hL c (List.mem_cons_self c cs))
      simp only [runSeg, processChunk_silent_not_started s c hv hs]
      rw [ih _ (fun x hx => hL x (List.mem_cons_of_mem c hx)) rfl]
      simp [sumDur_cons, List.append_assoc, add_assoc]

theorem runSeg_voiced_started (L : List Chunk) :
    ∀ s : SegState, (∀ c ∈ L, c.volume > SILENCE_THRESHOLD) →
      s.speech_started = true → s.silence_duration = 0 →
      runSeg s L =
        (⟨s.accumulated_audio ++ L, s.accumulated_time + sumDur L, true,
          s.speech_duration + sumDur L, 0⟩, 0) := by
  induction L with
  | nil =>
      intro s _ hs hz
      obtain ⟨buf, t, st, sp, sil⟩ := s
      simp only [SegState.mk.injEq] at hs hz ⊢
      simp [runSeg, sumDur_nil, hs, hz]
  | cons c cs ih =>
      intro s hL hs hz
      have hv : c.volume > SILENCE_THRESHOLD := hL c (List.mem_cons_self c cs)
      simp only [runSeg, processChunk_voiced_started s c hv hs]
      rw [ih _ (fun x hx => hL x (List.mem_cons_of_mem c hx)) rfl rfl]
      simp [sumDur_cons, List.append_assoc, add_assoc]

theorem runSeg_silent_started_below (L : List Chunk) :
    ∀ s : SegState, (∀ c ∈ L, c.volume ≤ SILENCE_THRESHOLD) →
      s.speech_started = true →
      s.silence_duration + sumDur L < MIN_SILENCE_DURATION →
      runSeg s L =
        (⟨s.accumulated_audio ++ L, s.accumulated_time + sumDur L, true,
          s.speech_duration, s.silence_duration + sumDur L⟩, 0) := by
  induction L with
  | nil =>
      intro s _ hs _
      obtain ⟨buf, t, st, sp, sil⟩ := s
      simp only [SegState.mk.injEq] at hs ⊢
      simp [runSeg, sumDur_nil, hs]
  | cons c cs ih =>
      intro s hL hs hb
      have hv : ¬ c.volume > SILENCE_THRESHOLD :=
        not_lt.mpr (hL c (List.mem_cons_self c cs))
      have hcs : 0 ≤ sumDur cs := sumDur_nonneg cs
      have hstep : s.silence_duration + c.duration < MIN_SILENCE_DURATION := by
        rw [sumDur_cons] at hb
        linarith
      simp only [runSeg, processChunk_silent_started_no_flush s c hv hs hstep]
      rw [ih _ (fun x hx => hL x (List.mem_cons_of_mem c hx)) rfl
        (by
          show s.silence_duration + c.duration + sumDur cs < MIN_SILENCE_DURATION
          rw [sumDur_cons] at hb
          linarith)]
      simp [sumDur_cons, List.append_assoc, add_assoc]

/-- C4: if no chunk's volume ever exceeds `SILENCE_THRESHOLD`, the segmenter
never flushes (never hands the buffer to `process_accumulated_audio`),
however long the sequence is. -/
theorem no_flush_when_always_silent (L : List Chunk)
    (h : ∀ c ∈ L, c.volume ≤ SILENCE_THRESHOLD) :
    (runSeg initSegState L).2 = 0 := by
  rw [runSeg_silent_not_started L initSegState h rfl]

theorem no_flush_when_always_silent_witness :
    (∀ c ∈ [Chunk.mk 1600 0, Chunk.mk 1600 (1 / 100), Chunk.mk 4800 (1 / 80)],
      c.volume ≤ SILENCE_THRESHOLD) ∧
    (runSeg initSegState
      [Chunk.mk 1600 0, Chunk.mk 1600 (1 / 100), Chunk.mk 4800 (1 / 80)]).2 = 0 := by
  have h : ∀ c ∈ [Chunk.mk 1600 0, Chunk.mk 1600 (1 / 100), Chunk.mk 4800 (1 / 80)],
      c.volume ≤ SILENCE_THRESHOLD := by
    intro c hc
    simp only [List.mem_cons, List.not_mem_nil, or_false] at hc
    rcases hc with rfl | rfl | rfl <;> norm_num [SILENCE_THRESHOLD]
  exact ⟨h, no_flush_when_always_silent _ h⟩

/-- C3: after a silent warm-up worth at least `PRE_SPEECH_BUFFER` of
accumulated time, a voiced run of total duration at least
`MIN_SPEECH_DURATION`, immediately followed by silent chunks, produces
exactly one flush — at the first silent chunk whose arrival makes the
trailing-silence duration reach `MIN_SILENCE_DURATION` — and immediately
after the flush the accumulated-time, speech-duration and silence-duration
counters are zero, `speech_started` is false and the frame buffer is
empty (the post-flush state is exactly `initSegState`). -/
theorem single_flush_on_utterance (Pre V S1 : List Chunk) (c : Chunk)
    (S2 : List Chunk)
    (hPre : ∀ x ∈ Pre, x.volume ≤ SILENCE_THRESHOLD)
    (hPreT : sumDur Pre ≥ PRE_SPEECH_BUFFER)
    (hV : ∀ x ∈ V, x.volume > SILENCE_THRESHOLD)
    (hVT : sumDur V ≥ MIN_SPEECH_DURATION)
    (hS1 : ∀ x ∈ S1, x.volume ≤ SILENCE_THRESHOLD)
    (hc : c.volume ≤ SILENCE_THRESHOLD)
    (hS2 : ∀ x ∈ S2, x.volume ≤ SILENCE_THRESHOLD)
    (hS1T : sumDur S1 < MIN_SILENCE_DURATION)
    (hcT : sumDur S1 + c.duration ≥ MIN_SILENCE_DURATION) :
    (runSeg initSegState (Pre ++ V ++ S1 ++ c :: S2)).2 = 1 ∧
    (runSeg initSegState (Pre ++ V ++ S1)).2 = 0 ∧
    runSeg initSegState (Pre ++ V ++ S1 ++ [c]) = (initSegState, 1) := by
  obtain ⟨v, V', rfl⟩ : ∃ v V', V = v :: V' := by
    cases V with
    | nil =>
        exfalso
        rw [sumDur_nil] at hVT
        norm_num [MIN_SPEECH_DURATION] at hVT
    | cons v V' => exact ⟨v, V', rfl⟩
  have h1 : runSeg initSegState Pre = (⟨Pre, sumDur Pre, false, 0, 0⟩, 0) := by
    rw [runSeg_silent_not_started Pre initSegState hPre rfl]
    simp [initSegState]
  have h2 : processChunk (⟨Pre, sumDur Pre, false, 0, 0⟩ : SegState) v =
      (⟨Pre ++ [v], sumDur Pre + v.duration, true, v.duration, 0⟩, false) := by
    rw [processChunk_voiced_first _ v (hV v (List.mem_cons_self v V')) rfl
      (by
        show sumDur Pre + v.duration ≥ PRE_SPEECH_BUFFER
        have := duration_nonneg v
        linarith)]
    simp
  have h3 : runSeg
      (⟨Pre ++ [v], sumDur Pre + v.duration, true, v.duration, 0⟩ : SegState) V' =
      (⟨Pre ++ [v] ++ V', sumDur Pre + v.duration + sumDur V', true,
        v.duration + sumDur V', 0⟩, 0) := by
    rw [runSeg_voiced_started V' _ (fun x hx => hV x (List.mem_cons_of_mem v hx))
      rfl rfl]
  have hsp : v.duration + sumDur V' ≥ MIN_SPEECH_DURATION := by
    rw [sumDur_cons] at hVT
    exact hVT
  have h4 : runSeg
      (⟨Pre ++ v :: V', sumDur Pre + v.duration + sumDur V', true,
        v.duration + sumDur V', 0⟩ : SegState) S1 =
      (⟨Pre ++ v :: (V' ++ S1), sumDur Pre + v.duration + sumDur V' + sumDur S1,
        true, v.duration + sumDur V', sumDur S1⟩, 0) := by
    rw [runSeg_silent_started_below S1 _ hS1 rfl
      (by
        show (0 : ℚ) + sumDur S1 < MIN_SILENCE_DURATION
        linarith)]
    simp
  have h5 : processChunk
      (⟨Pre ++ v :: (V' ++ S1), sumDur Pre + v.duration + sumDur V' + sumDur S1,
        true, v.duration + sumDur V', sumDur S1⟩ : SegState) c =
      (initSegState, true) :=
    processChunk_silent_started_flush _ c (not_lt.mpr hc) rfl hsp hcT
  have h6 : runSeg initSegState S2 = (⟨S2, sumDur S2, false, 0, 0⟩, 0) := by
    rw [runSeg_silent_not_started S2 initSegState hS2 rfl]
    simp [initSegState]
  refine ⟨?_, ?_, ?_⟩
  · simp [runSeg_append, runSeg, h1, h2, h3, h4, h5, h6]
  · simp [runSeg_append, runSeg, h1, h2, h3, h4]
  · simp [runSeg_append, runSeg, h1, h2, h3, h4, h5]

theorem sumDur_replicate (n : Nat) (c : Chunk) :
    sumDur (List.replicate n c) = n * c.duration := by
  simp [sumDur, List.map_replicate, List.sum_replicate, nsmul_eq_mul]

theorem single_flush_on_utterance_witness :
    sumDur wPre ≥ PRE_SPEECH_BUFFER ∧
    sumDur wV ≥ MIN_SPEECH_DURATION ∧
    sumDur wS1 < MIN_SILENCE_DURATION ∧
    sumDur wS1 + wC.duration ≥ MIN_SILENCE_DURATION ∧
    (runSeg initSegState (wPre ++ wV ++ wS1 ++ wC :: wS2)).2 = 1 ∧
    runSeg initSegState (wPre ++ wV ++ wS1 ++ [wC]) = (initSegState, 1) := by
  have hPre : ∀ x ∈ wPre, x.volume ≤ SILENCE_THRESHOLD := by
    intro x hx
    rw [List.eq_of_mem_replicate hx]
    norm_num [SILENCE_THRESHOLD]
  have hV : ∀ x ∈ wV, x.volume > SILENCE_THRESHOLD := by
    intro x hx
    rw [List.eq_of_mem_replicate hx]
    norm_num [SILENCE_THRESHOLD]
  have hS1 : ∀ x ∈ wS1, x.volume ≤ SILENCE_THRESHOLD := by
    intro x hx
    rw [List.eq_of_mem_replicate hx]
    norm_num [SILENCE_THRESHOLD]
  have hS2 : ∀ x ∈ wS2, x.volume ≤ SILENCE_THRESHOLD := by
    intro x hx
    rw [List.eq_of_mem_replicate hx]
    norm_num [SILENCE_THRESHOLD]
  have hc : wC.volume ≤ SILENCE_THRESHOLD := by
    norm_num [wC, SILENCE_THRESHOLD]
  have hPreT : sumDur wPre ≥ PRE_SPEECH_BUFFER := by
    rw [wPre, sumDur_replicate]
    norm_num [Chunk.duration, SAMPLE_RATE, PRE_SPEECH_BUFFER]
  have hVT : sumDur wV ≥ MIN_SPEECH_DURATION := by
    rw [wV, sumDur_replicate]
    norm_num [Chunk.duration, SAMPLE_RATE, MIN_SPEECH_DURATION]
  have hS1T : sumDur wS1 < MIN_SILENCE_DURATION := by
    rw [wS1, sumDur_replicate]
    norm_num [Chunk.duration, SAMPLE_RATE, MIN_SILENCE_DURATION]
  have hcT : sumDur wS1 + wC.duration ≥ MIN_SILENCE_DURATION := by
    rw [wS1, sumDur_replicate]
    norm_num [Chunk.duration, SAMPLE_RATE, MIN_SILENCE_DURATION, wC]
  have h := single_flush_on_utterance wPre wV wS1 wC wS2
    hPre hPreT hV hVT hS1 hc hS2 hS1T hcT
  exact ⟨hPreT, hVT, hS1T, hcT, h.1, h.2.2⟩

/-- C7: selecting a language different from the current one replaces the
chat context with exactly one system-role message carrying the selected
language's system prompt (all prior user/assistant entries are discarded),
and makes that language current. -/
theorem change_language_resets_context (s : VCState) (new_language : Language)
    (h : new_language ≠ s.current_language) :
    (change_language s new_language).context =
      [⟨"system", system_prompt new_language⟩] ∧
    (change_language s new_language).current_language = new_language := by
  rw [change_language, if_pos h]
  exact ⟨rfl, rfl⟩

theorem change_language_resets_context_witness :
    Language.deutsch ≠ Language.english ∧
    (change_language
      ⟨Language.english,
        [⟨"system", system_prompt Language.english⟩, ⟨"user", "hi"⟩,
         ⟨"assistant", "hello"⟩],
        true, false, [], 0⟩
      Language.deutsch).context =
      [⟨"system", system_prompt Language.deutsch⟩] :=
  ⟨by decide,
    (change_language_resets_context
      ⟨Language.english,
        [⟨"system", system_prompt Language.english⟩, ⟨"user", "hi"⟩,
         ⟨"assistant", "hello"⟩],
        true, false, [], 0⟩
      Language.deutsch (by decide)).1⟩

/-- C10: selecting the language that is already current is a no-op: the
whole state, in particular the context and `current_language`, is left
unchanged. -/
theorem change_language_same_is_noop (s : VCState) (new_language : Language)
    (h : new_language = s.current_language) :
    change_language s new_language = s := by
  rw [change_language, if_neg]
  simp [h]

theorem change_language_same_is_noop_witness :
    Language.english = Language.english ∧
    change_language
      ⟨Language.english,
        [⟨"system", system_prompt Language.english⟩, ⟨"user", "hi"⟩],
        true, false, [], 0⟩
      Language.english =
      ⟨Language.english,
        [⟨"system", system_prompt Language.english⟩, ⟨"user", "hi"⟩],
        true, false, [], 0⟩ :=
  ⟨rfl,
    change_language_same_is_noop
      ⟨Language.english,
        [⟨"system", system_prompt Language.english⟩, ⟨"user", "hi"⟩],
        true, false, [], 0⟩
      Language.english rfl⟩

/-- C8: while `processing_enabled` is false, a frame delivered to the
recording callback is not enqueued: the audio queue is unchanged, so its
length does not grow. -/
theorem callback_does_not_enqueue_when_disabled (s : VCState)
    (indata : List ℚ) (h : s.processing_enabled = false) :
    (recording_callback s indata).audio_queue = s.audio_queue ∧
    (recording_callback s indata).audio_queue.length = s.audio_queue.length := by
  have hq : (recording_callback s indata).audio_queue = s.audio_queue := by
    rw [recording_callback, if_neg]
    simp [h]
  exact ⟨hq, by rw [hq]⟩

theorem callback_does_not_enqueue_when_disabled_witness :
    (VCState.mk Language.english [] false true [([1], 1)] 0).processing_enabled
      = false ∧
    (recording_callback
      (VCState.mk Language.english [] false true [([1], 1)] 0)
      [1 / 2]).audio_queue = [([1], 1)] :=
  ⟨rfl,
    (callback_does_not_enqueue_when_disabled
      (VCState.mk Language.english [] false true [([1], 1)] 0)
      [1 / 2] rfl).1⟩

end Voice
